import Mathlib

/-!
Verification of the aircraft snapshot ingestion pipeline
(`bdi_api/s1/exercise.py` and `bdi_api/s4/exercise.py`).

The Python source is shallowly embedded: each endpoint body becomes an
executable Lean function over explicit state.  Numeric JSON values are
modelled as rationals, strings as Lean strings; string comparison,
suffix tests and path basenames are implemented structurally over the
character lists (both Python's `str` sort and SQLite's BINARY collation
order strings by code point, which is exactly lexicographic order on the
character lists for the ASCII data handled here).
-/

namespace Bdi

/-! ### Structural string operations -/

/-- Lexicographic order (as a Boolean) on character lists, by code point.
Embeds Python's `list.sort()` on strings and SQLite's `ORDER BY ... ASC`
with the default BINARY collation. -/
def lexLe : List Char → List Char → Bool
  | [], _ => true
  | _ :: _, [] => false
  | a :: as, b :: bs =>
    if a.toNat < b.toNat then true
    else if b.toNat < a.toNat then false
    else lexLe as bs

/-- Lexicographic order on strings, by code point. -/
def strLe (a b : String) : Bool := lexLe a.data b.data

/-- `leadsList pat l` holds when `pat` is an initial segment of `l`. -/
def leadsList : List Char → List Char → Bool
  | [], _ => true
  | _ :: _, [] => false
  | a :: as, b :: bs => a == b && leadsList as bs

/-- `strEndsWith s suf`: `s` ends with `suf`.  Embeds Python's
`str.endswith` (used to filter `*.json.gz` file names and S3 keys). -/
def strEndsWith (s suf : String) : Bool := leadsList suf.data.reverse s.data.reverse

/-- Accumulator loop for `basename`: keeps the characters seen since the
last `/`. -/
def basenameAux (acc : List Char) : List Char → List Char
  | [] => acc.reverse
  | c :: cs => if c == '/' then basenameAux [] cs else basenameAux (c :: acc) cs

/-- Embeds `key.split("/")[-1]` of `bdi_api/s4/exercise.py`: the part of
the key after its last slash. -/
def basename (k : String) : String := ⟨basenameAux [] k.data⟩

/-! ### Data model

The tables created by `_init_db` in `bdi_api/s1/exercise.py`, and the
JSON snapshot payloads read by `prepare_data` there. -/

/-- One aircraft observation object inside a snapshot's `aircraft` list:
the fields `hex`, `r`, `t`, `lat`, `lon`, `alt_baro`, `gs` read by
`prepare_data`, each possibly absent (`dict.get` returns `None`).
`emergency` records the Python truthiness of the `emergency` field
(`1 if a.get("emergency") else 0`). -/
structure Observation where
  hex : Option String
  r : Option String
  t : Option String
  lat : Option ℚ
  lon : Option ℚ
  alt_baro : Option ℚ
  gs : Option ℚ
  emergency : Bool
deriving DecidableEq, Repr

/-- A row of the `aircraft` table (`icao` is the primary key;
`registration` and `type` are nullable).  The `type` column is named
`ac_type` after the Python local variable, since `type` is reserved. -/
structure Aircraft where
  icao : String
  registration : Option String
  ac_type : Option String
deriving DecidableEq, Repr

/-- A row of the `positions` table (minus the autoincrement `id`;
insertion order is kept by the enclosing list). -/
structure PositionEvent where
  icao : String
  timestamp : ℚ
  lat : ℚ
  lon : ℚ
  altitude_baro : Option ℚ
  ground_speed : Option ℚ
  had_emergency : Bool
deriving DecidableEq, Repr

/-- One parsed raw snapshot file: the top-level `now` timestamp
(defaulted to `0.0` by `payload.get("now", 0.0)`) and the `aircraft`
list (defaulted to `[]`). -/
structure Payload where
  now : ℚ
  aircraft : List Observation
deriving DecidableEq, Repr

/-- The prepared SQLite database: the `aircraft` table (list in
insertion order, `icao` unique) and the append-only `positions` table
(list in insertion = rowid order). -/
structure Store where
  aircraft : List Aircraft
  positions : List PositionEvent
deriving DecidableEq, Repr

/-- The freshly created database produced by `_init_db`: both tables
empty. -/
def initStore : Store := ⟨[], []⟩

/-! ### The s1 prepare transform -/

/-- The identity guard `if not icao: continue` of `prepare_data`: the
observation's `hex`, unless it is absent or empty (both are falsy in
Python). -/
def obsIcao (a : Observation) : Option String :=
  match a.hex with
  | none => none
  | some s => if s = "" then none else some s

/-- Embeds the `INSERT INTO aircraft ... ON CONFLICT(icao) DO UPDATE`
statement of `prepare_data`: insert a fresh row when `icao` is unseen,
otherwise overwrite that row's `registration` and `type` with the
excluded (new) values. -/
def upsertAircraft (l : List Aircraft) (icao : String) (r t : Option String) :
    List Aircraft :=
  if ∃ a ∈ l, a.icao = icao then
    l.map (fun a => if a.icao = icao then { a with registration := r, ac_type := t } else a)
  else
    l ++ [⟨icao, r, t⟩]

/-- The body of the `for a in payload.get("aircraft", [])` loop of
`prepare_data`: skip when `hex` is falsy; otherwise upsert the aircraft
row and, only when both `lat` and `lon` are present, append one
position row carrying the snapshot's shared timestamp. -/
def processObservation (ts : ℚ) (st : Store) (a : Observation) : Store :=
  match obsIcao a with
  | none => st
  | some icao =>
    let st1 : Store := { st with aircraft := upsertAircraft st.aircraft icao a.r a.t }
    match a.lat, a.lon with
    | some la, some lo =>
      { st1 with
        positions := st1.positions ++ [⟨icao, ts, la, lo, a.alt_baro, a.gs, a.emergency⟩] }
    | _, _ => st1

/-- Processing of one raw snapshot file by `prepare_data`: fold the
observation loop over the payload's aircraft list. -/
def processFile (st : Store) (p : Payload) : Store :=
  p.aircraft.foldl (processObservation p.now) st

/-- Embeds `prepare_data` of `bdi_api/s1/exercise.py` as a function of
the previously prepared store (if any) and the parsed raw files in
ascending filename order.  `_ensure_clean_dir` and `_init_db` delete
any previous database before anything is written, so `prevPrepared`
never influences the result; an empty raw file set raises
`RuntimeError` before any database is created. -/
def prepare_data (prevPrepared : Option Store) (rawFiles : List Payload) :
    Except String Store :=
  match rawFiles with
  | [] => Except.error "No raw files found. Run download first."
  | _ :: _ => Except.ok (rawFiles.foldl processFile initStore)

/-! ### Filename sequencer -/

/-- Zero-padding to (at least) two digits: Python's `f"..:02d"` format
applied to a natural number. -/
def pad2 (n : Nat) : String := if n < 10 then "0" ++ toString n else toString n

/-- The `hh`, `mm`, `ss` fields computed by `_first_n_filenames` for
index `i` (`total_seconds = i * 5`). -/
def snapshotFields (i : Nat) : Nat × Nat × Nat :=
  (i * 5 / 3600, i * 5 % 3600 / 60, i * 5 % 60)

/-- The filename generated for index `i`:
`f"..:02d..:02d..:02dZ.json.gz"` over the three fields. -/
def snapshotName (i : Nat) : String :=
  pad2 (snapshotFields i).1 ++ pad2 (snapshotFields i).2.1 ++
    pad2 (snapshotFields i).2.2 ++ "Z.json.gz"

/-- Embeds `_first_n_filenames` (identical in `bdi_api/s1/exercise.py`
and `bdi_api/s4/exercise.py`). -/
def _first_n_filenames (file_limit : Nat) : List String :=
  (List.range file_limit).map snapshotName

/-- The number of seconds denoted by an `HH:MM:SS` field triple — the
reading "interpreted as a time of day" of a generated filename. -/
def clockSeconds (f : Nat × Nat × Nat) : Nat := f.1 * 3600 + f.2.1 * 60 + f.2.2

/-! ### Query surface -/

/-- The `ORDER BY icao ASC` of `list_aircraft`: sort the aircraft table
rows by code-point order on `icao`. -/
def sortByIcao (l : List Aircraft) : List Aircraft :=
  List.insertionSort (fun a b => strLe a.icao b.icao = true) l

/-- Embeds `list_aircraft` of `bdi_api/s1/exercise.py` (given an
existing store): `ORDER BY icao ASC LIMIT num_results OFFSET page *
num_results`. -/
def list_aircraft (st : Store) (num_results page : Nat) : List Aircraft :=
  ((sortByIcao st.aircraft).drop (page * num_results)).take num_results

/-- The shape of one element returned by the positions endpoint. -/
structure PositionOut where
  timestamp : ℚ
  lat : ℚ
  lon : ℚ
deriving DecidableEq, Repr

/-- Embeds `get_aircraft_position` of `bdi_api/s1/exercise.py` exactly
as written: the body is a TODO stub that ignores the store and the
query and returns one fixed hard-coded position
`timestamp=1609275898.6, lat=30.404617, lon=-86.476566`. -/
def get_aircraft_position (st : Store) (icao : String) (num_results page : Nat) :
    List PositionOut :=
  [⟨(16092758986 : ℚ) / 10, (30404617 : ℚ) / 1000000, -((86476566 : ℚ) / 1000000)⟩]

/-! ### The s4 (object-store) variant -/

/-- One object in the S3 bucket under the fixed `raw/day=20231101/`
key namespace, with its (parsed) body. -/
structure S3Object where
  key : String
  body : Payload
deriving DecidableEq, Repr

/-- Writing a file into a local directory (modelled as an association
list of filename/content in creation order): overwrite the existing
entry or append a new one. -/
def writeFile (dir : List (String × Payload)) (name : String) (body : Payload) :
    List (String × Payload) :=
  if ∃ e ∈ dir, e.1 = name then
    dir.map (fun e => if e.1 = name then (name, body) else e)
  else
    dir ++ [(name, body)]

/-- The staging step of `prepare_data` in `bdi_api/s4/exercise.py`:
collect the listed keys that do not end in `/` and end in `.json.gz`,
sort them ascending, and download each into the freshly cleaned local
raw directory under its basename. -/
def stageLocal (objects : List S3Object) : List (String × Payload) :=
  let keys := (objects.map S3Object.key).filter
    (fun k => !(strEndsWith k "/") && strEndsWith k ".json.gz")
  let sortedKeys := List.insertionSort (fun a b => strLe a b = true) keys
  sortedKeys.foldl
    (fun dir k =>
      match objects.find? (fun o => o.key == k) with
      | some o => writeFile dir (basename k) o.body
      | none => dir)
    []

/-- The raw-file listing `sorted(raw_day_dir.glob("*.json.gz"))` of
`prepare_data` in `bdi_api/s1/exercise.py`: the directory's `*.json.gz`
entries, in ascending filename order, mapped to their parsed contents. -/
def rawFilesOf (dir : List (String × Payload)) : List Payload :=
  let names := (dir.map Prod.fst).filter (fun n => strEndsWith n ".json.gz")
  (List.insertionSort (fun a b => strLe a b = true) names).filterMap
    (fun n => (dir.find? (fun e => e.1 == n)).map Prod.snd)

/-- `prepare_data` of `bdi_api/s1/exercise.py` as invoked on a local
raw directory: glob and sort the raw files, then run the transform. -/
def prepare_from_dir (prevPrepared : Option Store) (dir : List (String × Payload)) :
    Except String Store :=
  prepare_data prevPrepared (rawFilesOf dir)

namespace S4

/-- Embeds `prepare_data` of `bdi_api/s4/exercise.py`: stage the S3
objects into the local raw directory, then call the s1 `prepare_data`
(imported and invoked directly by the source) on that directory. -/
def prepare_data (prevPrepared : Option Store) (objects : List S3Object) :
    Except String Store :=
  prepare_from_dir prevPrepared (stageLocal objects)

end S4

/-- The shape of the stats endpoint's result. -/
structure StatsOut where
  max_altitude_baro : ℚ
  max_ground_speed : ℚ
  had_emergency : Bool
deriving DecidableEq, Repr

/-- Embeds `get_aircraft_statistics` of `bdi_api/s1/exercise.py`
exactly as written: the body is a TODO stub that ignores the store and
the `icao` and returns the fixed record
`max_altitude_baro=300000, max_ground_speed=493, had_emergency=False`. -/
def get_aircraft_statistics (st : Store) (icao : String) : StatsOut :=
  ⟨300000, 493, false⟩

/-! ### Concrete example data (used to exercise the definitions) -/

/-- An observation with identity, metadata and full position data. -/
def exObs : Observation :=
  ⟨some "ABC1", some "REG", some "T1", some 10, some 20, some 1000, some 250, false⟩

/-- An observation whose `hex` is absent. -/
def noHexObs : Observation := ⟨none, some "REG", none, some 1, some 2, none, none, false⟩

/-- A one-snapshot payload captured at time 100. -/
def exPayload : Payload := ⟨100, [exObs]⟩

/-- The store produced by preparing `[exPayload]` from scratch. -/
def exStore1 : Store :=
  ⟨[⟨"ABC1", some "REG", some "T1"⟩], [⟨"ABC1", 100, 10, 20, some 1000, some 250, false⟩]⟩

/-- A pre-existing aircraft row with known registration and type. -/
def seedAircraftRow : Aircraft := ⟨"ABC1", some "OLDREG", some "OLDT"⟩

/-- The spec's stats example: one aircraft with the three positions
`alt:100, gs:50`, `alt:300, gs:20, emergency:true`, `alt:200, gs:10`. -/
def exampleStatsStore : Store :=
  ⟨[⟨"ABC1", none, none⟩],
   [⟨"ABC1", 1, 0, 0, some 100, some 50, false⟩,
    ⟨"ABC1", 2, 0, 0, some 300, some 20, true⟩,
    ⟨"ABC1", 3, 0, 0, some 200, some 10, false⟩]⟩

/-- An unsorted seven-row aircraft table. -/
def exListStore : Store :=
  ⟨[⟨"C6", none, none⟩, ⟨"A1", none, none⟩, ⟨"B3", none, none⟩, ⟨"A2", none, none⟩,
    ⟨"B4", none, none⟩, ⟨"B5", none, none⟩, ⟨"C7", none, none⟩], []⟩

/-- A small S3 listing: two data objects (out of key order) and one
directory marker. -/
def exObjects : List S3Object :=
  [⟨"raw/day=20231101/000005Z.json.gz", ⟨105, []⟩⟩,
   ⟨"raw/day=20231101/000000Z.json.gz", exPayload⟩,
   ⟨"raw/day=20231101/", ⟨0, []⟩⟩]

/-- The local raw directory the staging step builds from `exObjects`. -/
def exStagedDir : List (String × Payload) :=
  [("000000Z.json.gz", exPayload), ("000005Z.json.gz", ⟨105, []⟩)]

/-! ### Helper lemmas -/

/-- `prepare_data` never reads the previously prepared store: the output
database is deleted and recreated before any record is written. -/
theorem prepare_data_prev_irrel (p₁ p₂ : Option Store) (files : List Payload) :
    prepare_data p₁ files = prepare_data p₂ files := by
  cases files <;> rfl

/-- Aircraft-table component of one observation step. -/
theorem processObservation_aircraft (ts : ℚ) (st : Store) (a : Observation) :
    (processObservation ts st a).aircraft
      = match obsIcao a with
        | none => st.aircraft
        | some i => upsertAircraft st.aircraft i a.r a.t := by
  unfold processObservation
  cases obsIcao a with
  | none => rfl
  | some i => cases a.lat <;> cases a.lon <;> rfl

/-- Positions-table component of one observation step. -/
theorem processObservation_positions (ts : ℚ) (st : Store) (a : Observation) :
    (processObservation ts st a).positions
      = st.positions ++
        (match obsIcao a, a.lat, a.lon with
         | some i, some la, some lo => [⟨i, ts, la, lo, a.alt_baro, a.gs, a.emergency⟩]
         | _, _, _ => []) := by
  unfold processObservation
  cases obsIcao a with
  | none => simp
  | some i => cases a.lat <;> cases a.lon <;> simp

/-! ### C1 -/

/-- C1: the positions query should return the persisted PositionEvents
of the given icao in ascending timestamp order, and the empty sequence
when there are none.  The source body is a TODO stub: even for the icao
"UNKNOWN" on an empty store it returns one fixed hard-coded position,
not the empty sequence. -/
theorem get_aircraft_position_stub_fixed_result :
    get_aircraft_position initStore "UNKNOWN" 1000 0 =
      [⟨(16092758986 : ℚ) / 10, (30404617 : ℚ) / 1000000, -((86476566 : ℚ) / 1000000)⟩]
    ∧ get_aircraft_position initStore "UNKNOWN" 1000 0 ≠ [] :=
  ⟨rfl, by decide⟩

/-! ### C2 -/

/-- C2: the stats query should aggregate the persisted positions (for
the spec's three-position example: maxAltitude 300, maxGroundSpeed 50,
hadEmergency true).  The source body is a TODO stub: on that very
store it returns the fixed record (300000, 493, false) instead. -/
theorem get_aircraft_statistics_stub_fixed_result :
    get_aircraft_statistics exampleStatsStore "ABC1" = ⟨300000, 493, false⟩
    ∧ get_aircraft_statistics exampleStatsStore "ABC1" ≠ ⟨300, 50, true⟩ :=
  ⟨rfl, by decide⟩

/-! ### C3 -/

/-- C3: `_first_n_filenames n` yields exactly `n` filenames; the `i`-th
renders the `HH`/`MM`/`SS` fields of `i * 5` seconds past midnight,
two-digit zero-padded, suffixed `Z.json.gz`; the encoded times are
strictly increasing; and `f 0`, `f 1`, `f 12` are `000000Z`, `000005Z`
and `000100Z` respectively. -/
theorem first_n_filenames_spec (n : Nat) :
    (_first_n_filenames n).length = n
    ∧ (∀ i, i < n → (_first_n_filenames n)[i]? = some (snapshotName i))
    ∧ (∀ i, clockSeconds (snapshotFields i) = i * 5)
    ∧ (∀ i j, i < j → clockSeconds (snapshotFields i) < clockSeconds (snapshotFields j))
    ∧ (_first_n_filenames 1)[0]? = some "000000Z.json.gz"
    ∧ (_first_n_filenames 2)[1]? = some "000005Z.json.gz"
    ∧ (_first_n_filenames 13)[12]? = some "000100Z.json.gz" := by
  have hclock : ∀ i, clockSeconds (snapshotFields i) = i * 5 := by
    intro i
    simp only [clockSeconds, snapshotFields]
    omega
  refine ⟨?_, ?_, hclock, ?_, by decide, by decide, by decide⟩
  · simp [_first_n_filenames]
  · intro i hi
    simp [_first_n_filenames, List.getElem?_map, List.getElem?_range hi]
  · intro i j hij
    rw [hclock, hclock]
    omega

/-- Witness for C3 at `n = 13`, `i = 12` and the pair `3 < 7`. -/
theorem first_n_filenames_spec_witness :
    (_first_n_filenames 13)[12]? = some (snapshotName 12)
    ∧ clockSeconds (snapshotFields 3) < clockSeconds (snapshotFields 7) :=
  ⟨(first_n_filenames_spec 13).2.1 12 (by decide),
   (first_n_filenames_spec 13).2.2.2.1 3 7 (by decide)⟩

/-! ### C4 -/

/-- C4: one observation step appends a position row exactly when the
observation has a (truthy) identity and both `lat` and `lon`; without
an identity the store is untouched; with an identity the aircraft
table is upserted whether or not a position row is appended. -/
theorem processObservation_spec (st : Store) (ts : ℚ) (a : Observation) :
    (processObservation ts st a).positions
      = st.positions ++
        (match obsIcao a, a.lat, a.lon with
         | some i, some la, some lo => [⟨i, ts, la, lo, a.alt_baro, a.gs, a.emergency⟩]
         | _, _, _ => [])
    ∧ (processObservation ts st a).aircraft
      = (match obsIcao a with
         | none => st.aircraft
         | some i => upsertAircraft st.aircraft i a.r a.t)
    ∧ (obsIcao a = none → processObservation ts st a = st) := by
  refine ⟨processObservation_positions ts st a, processObservation_aircraft ts st a, ?_⟩
  intro h
  unfold processObservation
  rw [h]

/-- Witness for C4: an observation with `hex` absent leaves the store
unchanged. -/
theorem processObservation_spec_witness :
    processObservation 0 initStore noHexObs = initStore :=
  (processObservation_spec initStore 0 noHexObs).2.2 (by decide)

/-! ### C9 -/

/-- C9: invoking prepare on an empty raw file set fails with the
`RuntimeError` (the spec's `NoInputError`) surfaced to the caller, and
no store is produced from snapshot data, whatever store a previous run
left. -/
theorem prepare_data_empty_raw_set (prev : Option Store) :
    prepare_data prev [] = Except.error "No raw files found. Run download first."
    ∧ ∀ s : Store, prepare_data prev [] ≠ Except.ok s :=
  ⟨rfl, fun s h => by simp [prepare_data] at h⟩

/-- Witness for C9 with no pre-existing store. -/
theorem prepare_data_empty_raw_set_witness :
    prepare_data none [] = Except.error "No raw files found. Run download first."
    ∧ prepare_data none [] ≠ Except.ok initStore :=
  ⟨(prepare_data_empty_raw_set none).1, (prepare_data_empty_raw_set none).2 initStore⟩

/-! ### C6 -/

/-- C6: the store is fully reset before each prepare run, so the result
is independent of any previously prepared store, and a rerun on the
same raw input set returns exactly the store of the first run. -/
theorem prepare_data_reset_idempotent (prev₁ prev₂ : Option Store) (files : List Payload) :
    prepare_data prev₁ files = prepare_data prev₂ files
    ∧ ∀ s : Store, prepare_data none files = Except.ok s →
        prepare_data (some s) files = Except.ok s := by
  refine ⟨prepare_data_prev_irrel _ _ _, fun s h => ?_⟩
  calc prepare_data (some s) files
      = prepare_data none files := prepare_data_prev_irrel _ _ _
    _ = Except.ok s := h

/-- Witness for C6: rerunning on `[exPayload]` over the store the first
run produced returns that same store. -/
theorem prepare_data_reset_idempotent_witness :
    prepare_data (some exStore1) [exPayload] = Except.ok exStore1 :=
  (prepare_data_reset_idempotent none none [exPayload]).2 exStore1 (by rfl)

/-! ### C7 -/

/-- C7: the aircraft upsert appends a new row for an unseen icao;
for a seen icao it keeps the table's icao column unchanged and
unconditionally overwrites that row's registration and type with the
new values, null values included. -/
theorem upsertAircraft_spec (l : List Aircraft) (i : String) (r t : Option String) :
    ((∀ a ∈ l, a.icao ≠ i) → upsertAircraft l i r t = l ++ [⟨i, r, t⟩])
    ∧ ((∃ a ∈ l, a.icao = i) →
        (upsertAircraft l i r t).map Aircraft.icao = l.map Aircraft.icao
        ∧ ∀ a ∈ upsertAircraft l i r t, a.icao = i →
            a.registration = r ∧ a.ac_type = t) := by
  constructor
  · intro h
    rw [upsertAircraft, if_neg]
    rintro ⟨a, ha, hai⟩
    exact h a ha hai
  · intro h
    rw [upsertAircraft, if_pos h]
    constructor
    · rw [List.map_map]
      apply List.map_congr_left
      intro a _
      by_cases hai : a.icao = i <;> simp [hai]
    · intro a ha hai
      rcases List.mem_map.mp ha with ⟨b, hb, hba⟩
      by_cases hbi : b.icao = i
      · rw [if_pos hbi] at hba
        subst hba
        exact ⟨rfl, rfl⟩
      · rw [if_neg hbi] at hba
        subst hba
        exact absurd hai hbi

/-- Witness for C7: inserting into an empty table appends the new row,
and upserting the already-seen icao "ABC1" with null registration and
type blanks out the previously known values. -/
theorem upsertAircraft_spec_witness :
    upsertAircraft [] "ABC1" (some "R") (some "T") = [⟨"ABC1", some "R", some "T"⟩]
    ∧ (upsertAircraft [seedAircraftRow] "ABC1" none none).map Aircraft.icao
        = [seedAircraftRow].map Aircraft.icao
    ∧ ∀ a ∈ upsertAircraft [seedAircraftRow] "ABC1" none none,
        a.icao = "ABC1" → a.registration = none ∧ a.ac_type = none :=
  ⟨(upsertAircraft_spec [] "ABC1" (some "R") (some "T")).1 (by decide),
   ((upsertAircraft_spec [seedAircraftRow] "ABC1" none none).2 (by decide)).1,
   ((upsertAircraft_spec [seedAircraftRow] "ABC1" none none).2 (by decide)).2⟩

/-! ### Order lemmas for the lexicographic sort -/

/-- `lexLe` is total. -/
theorem lexLe_total : ∀ as bs : List Char, lexLe as bs = true ∨ lexLe bs as = true := by
  intro as
  induction as with
  | nil => intro bs; left; rfl
  | cons a as ih =>
    intro bs
    cases bs with
    | nil => right; rfl
    | cons b bs =>
      by_cases h1 : a.toNat < b.toNat
      · left; simp [lexLe, h1]
      · by_cases h2 : b.toNat < a.toNat
        · right; simp [lexLe, h2]
        · rcases ih bs with h | h
          · left; simp [lexLe, h1, h2, h]
          · right; simp [lexLe, h1, h2, h]

/-- `lexLe` is transitive. -/
theorem lexLe_trans :
    ∀ as bs cs : List Char,
      lexLe as bs = true → lexLe bs cs = true → lexLe as cs = true := by
  intro as
  induction as with
  | nil => intro bs cs _ _; rfl
  | cons a as ih =>
    intro bs cs h1 h2
    cases bs with
    | nil => simp [lexLe] at h1
    | cons b bs =>
      cases cs with
      | nil => simp [lexLe] at h2
      | cons c cs =>
        simp only [lexLe] at h1 h2 ⊢
        by_cases hab : a.toNat < b.toNat
        · by_cases hbc : b.toNat < c.toNat
          · have hac : a.toNat < c.toNat := hab.trans hbc
            simp [hac]
          · by_cases hcb : c.toNat < b.toNat
            · rw [if_neg hbc, if_pos hcb] at h2
              exact absurd h2 (by simp)
            · have hac : a.toNat < c.toNat := by omega
              simp [hac]
        · by_cases hba : b.toNat < a.toNat
          · rw [if_neg hab, if_pos hba] at h1
            exact absurd h1 (by simp)
          · rw [if_neg hab, if_neg hba] at h1
            by_cases hbc : b.toNat < c.toNat
            · have hac : a.toNat < c.toNat := by omega
              simp [hac]
            · by_cases hcb : c.toNat < b.toNat
              · rw [if_neg hbc, if_pos hcb] at h2
                exact absurd h2 (by simp)
              · rw [if_neg hbc, if_neg hcb] at h2
                have hac : ¬ a.toNat < c.toNat := by omega
                have hca : ¬ c.toNat < a.toNat := by omega
                rw [if_neg hac, if_neg hca]
                exact ih bs cs h1 h2

instance : IsTotal Aircraft (fun a b => strLe a.icao b.icao = true) :=
  ⟨fun a b => lexLe_total a.icao.data b.icao.data⟩

instance : IsTrans Aircraft (fun a b => strLe a.icao b.icao = true) :=
  ⟨fun _ _ _ h₁ h₂ => lexLe_trans _ _ _ h₁ h₂⟩

/-! ### C8 -/

/-- C8: the aircraft listing is a permutation of the aircraft table
sorted ascending by icao, its result is sorted, and the `i`-th returned
row (for `i < num_results`) is row `page * num_results + i` of the
icao-ascending order — the offset is `page * num_results`. -/
theorem list_aircraft_spec (st : Store) (n p : Nat) :
    List.Sorted (fun a b => strLe a.icao b.icao = true) (list_aircraft st n p)
    ∧ (sortByIcao st.aircraft).Perm st.aircraft
    ∧ List.Sorted (fun a b => strLe a.icao b.icao = true) (sortByIcao st.aircraft)
    ∧ ∀ i, i < n → (list_aircraft st n p)[i]? = (sortByIcao st.aircraft)[p * n + i]? := by
  have hs : List.Sorted (fun a b => strLe a.icao b.icao = true) (sortByIcao st.aircraft) :=
    List.sorted_insertionSort _ _
  refine ⟨?_, List.perm_insertionSort _ _, hs, ?_⟩
  · exact List.Pairwise.sublist
      ((List.take_sublist _ _).trans (List.drop_sublist _ _)) hs
  · intro i hi
    unfold list_aircraft
    rw [List.getElem?_take, if_pos hi, List.getElem?_drop]

/-- Witness for C8 on a seven-row table with `num_results = 5`,
`page = 1`: the listing is rows 6.. of the sorted order. -/
theorem list_aircraft_spec_witness :
    list_aircraft exListStore 5 1 = [⟨"C6", none, none⟩, ⟨"C7", none, none⟩]
    ∧ (list_aircraft exListStore 5 1)[0]? = (sortByIcao exListStore.aircraft)[1 * 5 + 0]? :=
  ⟨by decide, (list_aircraft_spec exListStore 5 1).2.2.2 0 (by decide)⟩

/-! ### The no-duplicate-icao invariant -/

/-- Upserting a seen icao leaves the icao column unchanged. -/
theorem upsertAircraft_map_icao_seen (l : List Aircraft) (i : String) (r t : Option String)
    (h : ∃ a ∈ l, a.icao = i) :
    (upsertAircraft l i r t).map Aircraft.icao = l.map Aircraft.icao := by
  rw [upsertAircraft, if_pos h, List.map_map]
  apply List.map_congr_left
  intro a _
  by_cases hai : a.icao = i <;> simp [hai]

/-- The aircraft upsert preserves uniqueness of the icao column. -/
theorem upsertAircraft_icaos_nodup (l : List Aircraft) (i : String) (r t : Option String)
    (h : (l.map Aircraft.icao).Nodup) :
    ((upsertAircraft l i r t).map Aircraft.icao).Nodup := by
  by_cases hex : ∃ a ∈ l, a.icao = i
  · rw [upsertAircraft_map_icao_seen l i r t hex]
    exact h
  · rw [upsertAircraft, if_neg hex, List.map_append]
    rw [List.nodup_append]
    refine ⟨h, List.nodup_singleton _, ?_⟩
    intro x hx hxi
    rcases List.mem_map.mp hx with ⟨a, ha, rfl⟩
    simp only [List.map_cons, List.map_nil, List.mem_singleton] at hxi
    exact hex ⟨a, ha, hxi⟩

/-- One observation step preserves uniqueness of the icao column. -/
theorem processObservation_icaos_nodup (ts : ℚ) (st : Store) (a : Observation)
    (h : (st.aircraft.map Aircraft.icao).Nodup) :
    ((processObservation ts st a).aircraft.map Aircraft.icao).Nodup := by
  rw [processObservation_aircraft]
  cases obsIcao a with
  | none => exact h
  | some i => exact upsertAircraft_icaos_nodup st.aircraft i a.r a.t h

/-- Folding the observation loop preserves uniqueness of the icao
column. -/
theorem foldl_processObservation_icaos_nodup (ts : ℚ) :
    ∀ (as : List Observation) (st : Store),
      (st.aircraft.map Aircraft.icao).Nodup →
      ((as.foldl (processObservation ts) st).aircraft.map Aircraft.icao).Nodup := by
  intro as
  induction as with
  | nil => intro st h; exact h
  | cons a as ih =>
    intro st h
    exact ih _ (processObservation_icaos_nodup ts st a h)

/-- Processing one raw file preserves uniqueness of the icao column. -/
theorem processFile_icaos_nodup (st : Store) (p : Payload)
    (h : (st.aircraft.map Aircraft.icao).Nodup) :
    ((processFile st p).aircraft.map Aircraft.icao).Nodup :=
  foldl_processObservation_icaos_nodup p.now p.aircraft st h

/-- Processing a raw file list preserves uniqueness of the icao
column. -/
theorem foldl_processFile_icaos_nodup :
    ∀ (files : List Payload) (st : Store),
      (st.aircraft.map Aircraft.icao).Nodup →
      ((files.foldl processFile st).aircraft.map Aircraft.icao).Nodup := by
  intro files
  induction files with
  | nil => intro st h; exact h
  | cons f fs ih =>
    intro st h
    exact ih _ (processFile_icaos_nodup st f h)

/-- Any store a prepare run produces has no duplicate icao. -/
theorem prepare_data_ok_icaos_nodup (prev : Option Store) (files : List Payload) (s : Store)
    (h : prepare_data prev files = Except.ok s) :
    (s.aircraft.map Aircraft.icao).Nodup := by
  cases files with
  | nil => simp [prepare_data] at h
  | cons f fs =>
    have hs : (f :: fs).foldl processFile initStore = s := by
      simpa [prepare_data] using h
    rw [← hs]
    exact foldl_processFile_icaos_nodup (f :: fs) initStore (by simp [initStore])

/-! ### C5 -/

/-- C5 counterexample: prepare `[exPayload]` once (one position row),
then rerun on the unchanged raw set starting from that store.  The
rerun returns the same store: its position count is 1, not the doubled
count 2 the claim states. -/
theorem prepare_rerun_positions_not_doubled :
    prepare_data none [exPayload] = Except.ok exStore1
    ∧ prepare_data (some exStore1) [exPayload] = Except.ok exStore1
    ∧ exStore1.positions.length = 1
    ∧ exStore1.positions.length ≠ 2 * exStore1.positions.length :=
  ⟨rfl, rfl, rfl, by decide⟩

/-- C5 (amended): rerunning prepare on an unchanged raw file set gives
an identical Aircraft table with no duplicate icao, and an identical
(not doubled) PositionEvent table, because the store is reset before
each run. -/
theorem prepare_rerun_spec (files : List Payload) (s s' : Store)
    (h₁ : prepare_data none files = Except.ok s)
    (h₂ : prepare_data (some s) files = Except.ok s') :
    s' = s ∧ s'.aircraft = s.aircraft
    ∧ (s'.aircraft.map Aircraft.icao).Nodup
    ∧ s'.positions.length = s.positions.length := by
  rw [prepare_data_prev_irrel (some s) none files, h₁] at h₂
  have hss : s = s' := by
    cases h₂
    rfl
  subst hss
  exact ⟨rfl, rfl, prepare_data_ok_icaos_nodup none files s h₁, rfl⟩

/-- Witness for C5 (amended) on the raw set `[exPayload]`. -/
theorem prepare_rerun_spec_witness :
    exStore1 = exStore1 ∧ exStore1.aircraft = exStore1.aircraft
    ∧ (exStore1.aircraft.map Aircraft.icao).Nodup
    ∧ exStore1.positions.length = exStore1.positions.length :=
  prepare_rerun_spec [exPayload] exStore1 exStore1 (by rfl) (by rfl)

/-! ### C10 -/

/-- C10: after staging the object-store contents into the local raw
directory, the s4 prepare invokes the s1 transform on that directory,
so the two variants agree on any equal raw file set: whenever the
staged directory equals `d`, the s4 prepare result equals the s1
prepare result on `d` (whatever stores previous runs left behind). -/
theorem s4_prepare_refines_s1 (prev₁ prev₂ : Option Store) (objects : List S3Object)
    (d : List (String × Payload)) (h : stageLocal objects = d) :
    S4.prepare_data prev₁ objects = prepare_from_dir prev₂ d := by
  unfold S4.prepare_data prepare_from_dir
  rw [h]
  exact prepare_data_prev_irrel _ _ _

/-- Witness for C10: the three-object listing stages to the two-file
directory `exStagedDir`, and the two prepare variants agree there. -/
theorem s4_prepare_refines_s1_witness :
    S4.prepare_data none exObjects = prepare_from_dir none exStagedDir :=
  s4_prepare_refines_s1 none none exObjects exStagedDir (by decide)

end Bdi
